import Mathlib

/-!
Verification development for the silanthro/notion converter core.

Converter side (`src/md2notion.py`): a shallow embedding of the
Markdown-AST → Notion-block transform.  Mistletoe tokens are modelled as
inductive types carrying exactly the attributes the converter reads.
Python code that can raise (IndexError from `doc.children[-1]`, TypeError
from `max(int)`, AttributeError from a missing `.content`) is modelled
with `Except PyErr`.

Renderer side (`src/notion.py`): block dicts are modelled as JSON-like
values (`JVal`) because `_block_dict_to_text` works on raw dicts with
`.get`, dynamic keys (`data.get(image_type, {})`) and recursion into the
`data` dict for mentions.  Recursion is metered by an explicit fuel
parameter standing for Python's finite recursion depth
(RecursionError); every theorem quantifies over or instantiates the fuel.
-/

namespace NotionRepo

/-- Python exception kinds that the converter/renderer core can raise. -/
inductive PyErr where
  | indexError
  | typeError
  | attributeError
  | valueError
  | recursionError
deriving DecidableEq, Repr

/-- The `annotations` dict of a rich-text run.  Keys absent from the
Python dict are modelled as `false`; the source only ever writes `True`. -/
structure Annotations where
  bold : Bool := false
  italic : Bool := false
  code : Bool := false
  strikethrough : Bool := false
deriving DecidableEq, Repr

/-- A converter-produced rich-text run:
`{"type": "text", "text": {"content": ..., "link": {"url": ...}?},
  "annotations": {...}, "plain_text": ..., "href": ...?}`.
The constant `"type": "text"` wrapper is implicit; `link` is the
flattened `text.link.url`. -/
structure RichText where
  content : String
  annotations : Annotations
  plain_text : String
  link : Option String
  href : Option String
deriving DecidableEq, Repr

/-- Mistletoe span tokens, carrying the attributes `spans2text` reads.
`rawText` has `.content` and no (truthy) `.children`; the styled/link
tokens have `.children` and no `.content`; `image` has `.src`. -/
inductive Span where
  | rawText (content : String)
  | strong (children : List Span)
  | emphasis (children : List Span)
  | inlineCode (children : List Span)
  | strikethrough (children : List Span)
  | link (target : String) (children : List Span)
  | autoLink (target : String) (children : List Span)
  | image (src : String)

/-- A mistletoe `TableCell`: its children are spans. -/
structure TableCell where
  children : List Span

/-- A mistletoe `TableRow`: its children are cells. -/
structure TableRow where
  children : List TableCell

/-- Mistletoe block tokens, carrying the attributes the converter reads.
`list`'s `start` is `none` for bullet lists and `some n` for ordered
lists starting at `n` (mistletoe sets `start = None` or an int). -/
inductive BlockToken where
  | heading (level : Nat) (children : List Span)
  | quote (children : List Span)
  | paragraph (children : List Span)
  | codeFence (language : String) (children : List Span)
  | blockCode (language : String) (children : List Span)
  | htmlBlock (language : String) (children : List Span)
  | list (start : Option Nat) (children : List BlockToken)
  | listItem (children : List BlockToken)
  | table (header : TableRow) (children : List TableRow)
  | thematicBreak

mutual
/-- A converter output block `{"type": t, t: data}` (with the constant
`"object": "block"` key implicit). -/
inductive NBlock where
  | mk (type : String) (data : NData)
/-- The kind-specific `data` dicts the source builds; each constructor
is one of the dict shapes appearing in `md2notion.py`. -/
inductive NData where
  | empty
  | richText (rich_text : List RichText)
  | codeData (rich_text : List RichText) (language : Option String)
  | richTextChildren (rich_text : List RichText) (children : List NBlock)
  | externalImage (url : String)
  | cells (cells : List (List RichText))
  | tableData (table_width : Nat) (children : List NBlock)
end

/-- The `"type"` key of a converter block. -/
def NBlock.type : NBlock → String
  | .mk t _ => t

/-- The kind-specific data of a converter block. -/
def NBlock.data : NBlock → NData
  | .mk _ d => d

/-- `make_block`: builds `[{"object": "block", "type": t, t: data}]`
(the constant `"object": "block"` key is implicit; no caller passes
`**kwargs`). -/
def make_block (type_name : String) (data : NData) : List NBlock :=
  [NBlock.mk type_name data]

/-- `c["annotations"]["bold"] = True` -/
def setBold (r : RichText) : RichText :=
  { r with annotations := { r.annotations with bold := true } }

/-- `c["annotations"]["italic"] = True` -/
def setItalic (r : RichText) : RichText :=
  { r with annotations := { r.annotations with italic := true } }

/-- `c["annotations"]["code"] = True` -/
def setCode (r : RichText) : RichText :=
  { r with annotations := { r.annotations with code := true } }

/-- `c["annotations"]["strikethrough"] = True` -/
def setStrikethrough (r : RichText) : RichText :=
  { r with annotations := { r.annotations with strikethrough := true } }

/-- `c["text"]["link"] = {"url": target}; c["href"] = target` -/
def setLink (target : String) (r : RichText) : RichText :=
  { r with link := some target, href := some target }

/-- The leaf run built from a contentful span:
`{"type": "text", "text": {"content": c}, "annotations": {},
  "plain_text": c}`. -/
def leafRun (content : String) : RichText :=
  { content := content, annotations := {}, plain_text := content,
    link := none, href := none }

mutual
/-- `spans2text`: flatten a span list into rich-text runs plus extracted
image blocks, accumulating `rich_text += children` / `images +=
child_images` per span in order. -/
def spans2text : List Span → Except PyErr (List RichText × List NBlock)
  | [] => .ok ([], [])
  | span :: rest => do
      let (children, child_images) ← span2text_one span
      let (rt, imgs) ← spans2text rest
      pure (children ++ rt, child_images ++ imgs)

/-- The body of the `for span in spans` loop for a single span: images
become an `image` block; other spans recurse into truthy `.children` or
build a leaf from `.content`, then the span's own style/link is applied
to every run of `children`.  A styled/link token with an empty child
list falls into the `span.content` branch, which raises AttributeError
(these tokens have no `.content`). -/
def span2text_one : Span → Except PyErr (List RichText × List NBlock)
  | .image src =>
      pure ([], make_block "image" (.externalImage src))
  | .rawText c =>
      pure ([leafRun c], [])
  | .strong cs => do
      let (children, imgs) ←
        match cs with
        | [] => (.error .attributeError : Except PyErr _)
        | c :: cs' => spans2text (c :: cs')
      pure (children.map setBold, imgs)
  | .emphasis cs => do
      let (children, imgs) ←
        match cs with
        | [] => (.error .attributeError : Except PyErr _)
        | c :: cs' => spans2text (c :: cs')
      pure (children.map setItalic, imgs)
  | .inlineCode cs => do
      let (children, imgs) ←
        match cs with
        | [] => (.error .attributeError : Except PyErr _)
        | c :: cs' => spans2text (c :: cs')
      pure (children.map setCode, imgs)
  | .strikethrough cs => do
      let (children, imgs) ←
        match cs with
        | [] => (.error .attributeError : Except PyErr _)
        | c :: cs' => spans2text (c :: cs')
      pure (children.map setStrikethrough, imgs)
  | .link target cs => do
      let (children, imgs) ←
        match cs with
        | [] => (.error .attributeError : Except PyErr _)
        | c :: cs' => spans2text (c :: cs')
      pure (children.map (setLink target), imgs)
  | .autoLink target cs => do
      let (children, imgs) ←
        match cs with
        | [] => (.error .attributeError : Except PyErr _)
        | c :: cs' => spans2text (c :: cs')
      pure (children.map (setLink target), imgs)
end

/-- `heading2notion`: `heading_{level}` block with the runs, then the
extracted images appended. -/
def heading2notion (level : Nat) (children : List Span) :
    Except PyErr (List NBlock) := do
  let (text, images) ← spans2text children
  pure (make_block ("heading_" ++ toString level) (.richText text) ++ images)

/-- `quote2notion` -/
def quote2notion (children : List Span) : Except PyErr (List NBlock) := do
  let (text, images) ← spans2text children
  pure (make_block "quote" (.richText text) ++ images)

/-- `paragraph2notion` -/
def paragraph2notion (children : List Span) : Except PyErr (List NBlock) := do
  let (text, images) ← spans2text children
  pure (make_block "paragraph" (.richText text) ++ images)

/-- `blockcode2notion`: `"language": block.language or None` maps the
empty language to `none`. -/
def blockcode2notion (language : String) (children : List Span) :
    Except PyErr (List NBlock) := do
  let (text, images) ← spans2text children
  pure (make_block "code"
    (.codeData text (if language = "" then none else some language)) ++ images)

/-- `codefence2notion` (same body as `blockcode2notion` in the source). -/
def codefence2notion (language : String) (children : List Span) :
    Except PyErr (List NBlock) := do
  let (text, images) ← spans2text children
  pure (make_block "code"
    (.codeData text (if language = "" then none else some language)) ++ images)

/-- `html2notion` delegates to `blockcode2notion` (HTML is encoded as a
code block); the `HtmlBlock` token is modelled with the fields
`blockcode2notion` reads. -/
def html2notion (language : String) (children : List Span) :
    Except PyErr (List NBlock) :=
  blockcode2notion language children

/-- `if block.start:` — Python truthiness of mistletoe's `start`
attribute (`None` for bullet lists, an int for ordered lists). -/
def pyTruthyNat : Option Nat → Bool
  | none => false
  | some n => n != 0

/-- `block.children[0].children`: the spans of a list item's first
child.  List items produced by mistletoe start with a paragraph-like
token; tokens whose children are not spans would send block tokens into
`spans2text` (duck typing) and are outside the modelled well-formed
domain. -/
def firstChildSpans : BlockToken → Except PyErr (List Span)
  | .heading _ sp => .ok sp
  | .quote sp => .ok sp
  | .paragraph sp => .ok sp
  | .codeFence _ sp => .ok sp
  | .blockCode _ sp => .ok sp
  | .htmlBlock _ sp => .ok sp
  | _ => .error .typeError

mutual
/-- `listitem2notion`: converts one `ListItem`.  `block.children[0]`
raises IndexError when the item has no children.  The item's own
extracted images (`p_images`) are attached — prepended before the
sub-list blocks — only when a second child exists and is a `List`;
otherwise they are discarded. -/
def listitem2notion (block : BlockToken) (list_type : String) :
    Except PyErr (List NBlock) :=
  match block with
  | .listItem children =>
    match children with
    | [] => .error .indexError
    | c0 :: rest => do
        let sp ← firstChildSpans c0
        let (p_text, p_images) ← spans2text sp
        match rest with
        | .list st lits :: _ => do
            let sub ← list2notion st lits
            pure (make_block list_type (.richTextChildren p_text (p_images ++ sub)))
        | _ => pure (make_block list_type (.richText p_text))
  | _ => .error .attributeError

/-- `list2notion`: `items += listitem2notion(child, "numbered_list_item"
if block.start else "bulleted_list_item")` for each child in order. -/
def list2notion (start : Option Nat) (children : List BlockToken) :
    Except PyErr (List NBlock) :=
  match children with
  | [] => .ok []
  | c :: cs => do
      let items ← listitem2notion c
        (if pyTruthyNat start then "numbered_list_item" else "bulleted_list_item")
      let rest ← list2notion start cs
      pure (items ++ rest)
end

/-- `tablerow2notion`: one `table_row` block,
`{"cells": [spans2text(c.children)[0] for c in block.children]}` —
per-cell runs, the extracted images (`[1]`) dropped. -/
def tablerow2notion (row : TableRow) : Except PyErr (List NBlock) := do
  let cellRuns ← row.children.mapM (fun c => do
      let (rt, _) ← spans2text c.children
      pure rt)
  pure (make_block "table_row" (.cells cellRuns))

/-- `table2notion`: header row first, then
`table_width = max(len(block.header.children), *[len(row.children) for
row in block.children])` — with zero body rows this is `max(int)`,
which raises TypeError — then all body rows appended in order. -/
def table2notion (header : TableRow) (children : List TableRow) :
    Except PyErr (List NBlock) := do
  let headerRows ← tablerow2notion header
  match children with
  | [] => .error .typeError
  | r :: rs => do
      let table_width :=
        (r :: rs).foldl (fun acc row => Nat.max acc row.children.length)
          header.children.length
      let body ← (r :: rs).mapM tablerow2notion
      pure (make_block "table" (.tableData table_width (headerRows ++ body.flatten)))

/-- `break2notion`: a `divider` block with empty data. -/
def break2notion : List NBlock :=
  make_block "divider" .empty

/-- The dispatch body of `md2notion`'s `for child in doc.children`
loop; AST kinds with no `isinstance` arm are silently skipped. -/
def md2notionLoop : List BlockToken → Except PyErr (List NBlock)
  | [] => .ok []
  | c :: cs => do
      let blocks ←
        match c with
        | .heading level sp => heading2notion level sp
        | .quote sp => quote2notion sp
        | .paragraph sp => paragraph2notion sp
        | .codeFence lang sp => codefence2notion lang sp
        | .blockCode lang sp => blockcode2notion lang sp
        | .list st items => list2notion st items
        | .table h rs => table2notion h rs
        | .thematicBreak => pure break2notion
        | .htmlBlock lang sp => html2notion lang sp
        | .listItem _ => pure []
      let rest ← md2notionLoop cs
      pure (blocks ++ rest)

/-- `md2notion` after mistletoe parsing: takes `doc.children`.  The
leftover debug `print(doc.children[-1].children)` indexes the last
top-level token, so an empty document raises IndexError before the
conversion loop runs. -/
def md2notion (doc_children : List BlockToken) : Except PyErr (List NBlock) :=
  match doc_children with
  | [] => .error .indexError
  | cs => md2notionLoop cs

/-! ## Renderer side: `src/notion.py` -/

/-- JSON-like values standing for the Python dicts the renderer walks. -/
inductive JVal where
  | null
  | bool (b : Bool)
  | num (n : Int)
  | str (s : String)
  | arr (items : List JVal)
  | obj (fields : List (String × JVal))

/-- Python's `d.get(k)`: `none` when the key is absent.  `.get` exists
only on dicts; the renderer reaches it on dict-shaped (or
absent-defaulted) values for the inputs modelled here, so a non-dict
receiver is mapped to `none` as well. -/
def JVal.get : JVal → String → Option JVal
  | .obj fields, key => fields.lookup key
  | _, _ => none

/-- Python truthiness of a value. -/
def pyTruthy : JVal → Bool
  | .null => false
  | .bool b => b
  | .num n => n != 0
  | .str s => s != ""
  | .arr items => !items.isEmpty
  | .obj fields => !fields.isEmpty

/-- Python truthiness of a `d.get(k)` result (`None` is falsy). -/
def pyTruthyO : Option JVal → Bool
  | none => false
  | some v => pyTruthy v

/-- Python `str()` as used by f-string interpolation.  `str(None)` is
`"None"` — this is how a missing `language`/`url` leaks into rendered
output.  Containers would render as their repr, which no modelled flow
reaches. -/
def pyStr : JVal → String
  | .null => "None"
  | .bool true => "True"
  | .bool false => "False"
  | .num n => toString n
  | .str s => s
  | .arr _ => "[unmodelled-repr]"
  | .obj _ => "[unmodelled-repr]"

/-- f-string interpolation of a `d.get(k)` result: an absent key is the
`None` object and prints `"None"`. -/
def pyStrO (o : Option JVal) : String :=
  pyStr (o.getD .null)

/-- If `pat` is a prefix of `l`, the remainder after dropping it. -/
def stripPat : List Char → List Char → Option (List Char)
  | [], l => some l
  | _ :: _, [] => none
  | p :: ps, c :: cs => if p = c then stripPat ps cs else none

/-- Fuel-metered worker for `pyReplace`; fuel is the list length, and
each step consumes at least one character when `pat` is nonempty. -/
def replaceFuel (pat rep : List Char) : Nat → List Char → List Char
  | _, [] => []
  | 0, l => l
  | fuel + 1, c :: rest =>
      match stripPat pat (c :: rest) with
      | some remainder => rep ++ replaceFuel pat rep fuel remainder
      | none => c :: replaceFuel pat rep fuel rest

/-- Python `s.replace(pat, rep)` (structural model over character
lists; the empty-pattern behaviour is unreached — the renderer replaces
`"heading_"` and `"\n"`). -/
def pyReplace (s pat rep : String) : String :=
  if pat.isEmpty then s
  else String.mk (replaceFuel pat.toList rep.toList s.toList.length s.toList)

/-- Python `s.startswith(p)` (structural model). -/
def pyStartsWith (s p : String) : Bool :=
  (stripPat p.toList s.toList).isSome

/-- Decimal digits to a number. -/
def digitsToNat (ds : List Char) : Nat :=
  ds.foldl (fun a c => a * 10 + (c.toNat - 48)) 0

/-- Python `int(s)`: an optional minus sign followed by decimal digits;
anything else raises ValueError.  (Surrounding whitespace, `+` and `_`
separators accepted by Python are unreached here.) -/
def pyInt (s : String) : Except PyErr Int :=
  match s.toList with
  | [] => .error .valueError
  | '-' :: rest =>
      if !rest.isEmpty && rest.all Char.isDigit then .ok (-(digitsToNat rest : Int))
      else .error .valueError
  | l =>
      if l.all Char.isDigit then .ok (digitsToNat l : Int)
      else .error .valueError

/-- Python `"#" * n` for an int `n` (empty for `n ≤ 0`). -/
def pyRepeat (c : Char) (n : Int) : String :=
  String.mk (List.replicate n.toNat c)

/-- One iteration of `_rich_text_arr_to_text`'s loop:
`text = t.get("plain_text", ""); href = t.get("href")`; a truthy href
wraps as `(text)[href]`.  Python's `.get` raises AttributeError if an
array element is not a dict. -/
def richTextItemToText (t : JVal) : Except PyErr String :=
  match t with
  | .obj _ =>
      let text := pyStr ((t.get "plain_text").getD (.str ""))
      let href := t.get "href"
      if pyTruthyO href then
        .ok ("(" ++ text ++ ")[" ++ pyStrO href ++ "]")
      else
        .ok text
  | _ => .error .attributeError

/-- `_rich_text_arr_to_text`: `""` for an absent/`None` array, else the
concatenation of the per-run texts in order.  Iterating a non-list
raises TypeError. -/
def richTextArrToText (arr : Option JVal) : Except PyErr String :=
  match arr with
  | none => .ok ""
  | some .null => .ok ""
  | some (.arr items) => do
      let texts ← items.mapM richTextItemToText
      pure (String.join texts)
  | some _ => .error .typeError

/-- `_format_children`: when `has_children` is truthy, render each
child with its 0-based index and indent each of its lines by one tab.
`_format_children(block_dict)` reads only `has_children` and
`children`, which are passed explicitly here (`render` is the recursive
renderer at the remaining fuel). -/
def format_children (render : JVal → Nat → Except PyErr String)
    (has_children children : Option JVal) : Except PyErr String :=
  if pyTruthyO has_children then
    match children.getD (.arr []) with
    | .arr child_blocks => do
        let parts ← child_blocks.enum.mapM (fun p => do
            let block_text ← render p.2 p.1
            pure ("\n\t" ++ pyReplace block_text "\n" "\n\t"))
        pure (String.join parts)
    | _ => .error .typeError
  else
    .ok ""

/-- `image_type = data.get("type"); url = data.get(image_type, {}).get("url")`
— the repeated body of the `image` / `pdf` / `video` branches. -/
def mediaUrl (data : JVal) : String :=
  let inner :=
    match data.get "type" with
    | some (.str image_type) => (data.get image_type).getD (.obj [])
    | _ => .obj []
  pyStrO (inner.get "url")

/-- The if-chain of `_block_dict_to_text` over the block's `"type"`
string, with the dict accesses the chain performs passed explicitly:
`data = block_dict.get("data", {})`, `idv = block_dict.get("id")`, and
the two keys `_format_children` reads.  The `table_of_contents` branch
of the source is `pass` (no return), so control falls through to the
final `return ""` exactly as when no branch matches. -/
def dispatch (render : JVal → Nat → Except PyErr String)
    (block_type : String) (data : JVal) (idv has_children children : Option JVal)
    (pos : Nat) : Except PyErr String :=
  if block_type = "bookmark" then do
    let caption ← richTextArrToText (data.get "caption")
    let url := (data.get "url").getD (.str "")
    pure ("[" ++ caption ++ "](" ++ pyStr url ++ ")")
  else if block_type = "breadcrumb" then
    pure ""
  else if block_type = "bulleted_list_item" then do
    let rt ← richTextArrToText (data.get "rich_text")
    let fc ← format_children render has_children children
    pure ("- " ++ rt ++ fc)
  else if block_type = "callout" then
    richTextArrToText (data.get "rich_text")
  else if block_type = "child_database" then
    pure ("[" ++ pyStrO (data.get "title") ++ "](page_id=" ++ pyStrO idv ++ ")")
  else if block_type = "child_page" then
    pure ("[" ++ pyStrO (data.get "title") ++ "](page_id=" ++ pyStrO idv ++ ")")
  else if block_type = "code" then do
    let rt ← richTextArrToText (data.get "rich_text")
    pure ("```" ++ pyStrO (data.get "language") ++ "\n" ++ rt ++ "\n```")
  else if block_type = "column_list" then
    format_children render has_children children
  else if block_type = "divider" then
    pure "---"
  else if block_type = "embed" then
    let url := pyStr ((data.get "url").getD (.str ""))
    pure ("[" ++ url ++ "](" ++ url ++ ")")
  else if block_type = "equation" then
    pure (pyStr ((data.get "expression").getD (.str "")))
  else if block_type = "file" then do
    let caption ← richTextArrToText (data.get "caption")
    let name := data.get "name"
    let url := (data.get "url").getD (.str "")
    let display :=
      if caption != "" then caption
      else if pyTruthyO name then pyStrO name
      else pyStr url
    pure ("[" ++ display ++ "](" ++ pyStr url ++ ")")
  else if pyStartsWith block_type "heading" then do
    let heading_size ← pyInt (pyReplace block_type "heading_" "")
    let rt ← richTextArrToText (data.get "rich_text")
    let fc ← format_children render has_children children
    pure (pyRepeat '#' heading_size ++ " " ++ rt ++ fc)
  else if block_type = "image" then
    let url := mediaUrl data
    pure ("![" ++ url ++ "](" ++ url ++ ")")
  else if block_type = "link_preview" then
    let url := pyStr ((data.get "url").getD (.str ""))
    pure ("[" ++ url ++ "](" ++ url ++ ")")
  else if block_type = "mention" then
    render data 0
  else if block_type = "numbered_list_item" then do
    let rt ← richTextArrToText (data.get "rich_text")
    let fc ← format_children render has_children children
    pure (toString (pos + 1) ++ ". " ++ rt ++ fc)
  else if block_type = "paragraph" then do
    let rt ← richTextArrToText (data.get "rich_text")
    let fc ← format_children render has_children children
    pure (rt ++ fc)
  else if block_type = "pdf" then
    let url := mediaUrl data
    pure ("![" ++ url ++ "](" ++ url ++ ")")
  else if block_type = "quote" then do
    let rt ← richTextArrToText (data.get "rich_text")
    let fc ← format_children render has_children children
    pure ("> " ++ rt ++ fc)
  else if block_type = "synced_block" then
    format_children render has_children children
  else if block_type = "table" then
    pure ("[Table](table_id=" ++ pyStrO idv ++ ")")
  else if block_type = "to_do" then do
    let checkbox := if pyTruthyO (data.get "checked") then "- [x]" else "- [ ]"
    let rt ← richTextArrToText (data.get "rich_text")
    let fc ← format_children render has_children children
    pure (checkbox ++ rt ++ fc)
  else if block_type = "toggle" then do
    let rt ← richTextArrToText (data.get "rich_text")
    let fc ← format_children render has_children children
    pure (rt ++ fc)
  else if block_type = "video" then
    let url := mediaUrl data
    pure ("![" ++ url ++ "](" ++ url ++ ")")
  else
    pure ""

/-- `_block_dict_to_text(block_dict, pos)`.  A non-string `type` value
(e.g. the `None` of an absent key) fails every equality test and then
raises AttributeError at `block_type.startswith`.  The fuel stands for
Python's recursion-depth limit (RecursionError when exhausted); the
renderer reads `block_dict` only through the five keys passed on to
`dispatch`. -/
def block_dict_to_text : Nat → JVal → Nat → Except PyErr String
  | 0, _, _ => .error .recursionError
  | fuel + 1, block_dict, pos =>
      match block_dict.get "type" with
      | some (.str block_type) =>
          dispatch (fun c i => block_dict_to_text fuel c i) block_type
            ((block_dict.get "data").getD (.obj []))
            (block_dict.get "id") (block_dict.get "has_children")
            (block_dict.get "children") pos
      | _ => .error .attributeError

/-- `get_page_text`'s join over the fetched blocks:
`"\n".join(_block_dict_to_text(b, i) for i, b in enumerate(blocks))`. -/
def pageBlocksToText (fuel : Nat) (blocks : List JVal) : Except PyErr String := do
  let parts ← blocks.enum.mapM (fun p => block_dict_to_text fuel p.2 p.1)
  pure (String.intercalate "\n" parts)

/-! ## Computation lemmas for `Except` -/

@[simp] theorem except_ok_bind {α β : Type} (a : α) (f : α → Except PyErr β) :
    (Except.ok a >>= f : Except PyErr β) = f a := rfl

@[simp] theorem except_error_bind {α β : Type} (e : PyErr) (f : α → Except PyErr β) :
    (Except.error e >>= f : Except PyErr β) = .error e := rfl

@[simp] theorem except_map_ok {α β : Type} (f : α → β) (a : α) :
    (f <$> (Except.ok a : Except PyErr α)) = .ok (f a) := rfl

@[simp] theorem except_map_error {α β : Type} (f : α → β) (e : PyErr) :
    (f <$> (Except.error e : Except PyErr α)) = .error e := rfl

@[simp] theorem except_pure_def {α : Type} (a : α) :
    (pure a : Except PyErr α) = .ok a := rfl

theorem except_mapM_def {α β : Type} (f : α → Except PyErr β) (l : List α) :
    List.mapM f l = List.mapM.loop f l [] := rfl

@[simp] theorem except_mapM_loop_nil {α β : Type} (f : α → Except PyErr β)
    (acc : List β) :
    List.mapM.loop f ([] : List α) acc = .ok acc.reverse := rfl

@[simp] theorem except_mapM_loop_cons {α β : Type} (f : α → Except PyErr β)
    (a : α) (as : List α) (acc : List β) :
    List.mapM.loop f (a :: as) acc =
      (f a >>= fun b => List.mapM.loop f as (b :: acc)) := rfl

/-! ## Helper lemmas -/

/-- Reduction of the renderer's if-chain at kind `numbered_list_item`. -/
theorem dispatch_numbered_eq (render : JVal → Nat → Except PyErr String)
    (data : JVal) (idv has_children children : Option JVal) (pos : Nat) :
    dispatch render "numbered_list_item" data idv has_children children pos =
      (richTextArrToText (data.get "rich_text") >>= fun rt =>
        format_children render has_children children >>= fun fc =>
        pure (toString (pos + 1) ++ ". " ++ rt ++ fc)) := rfl

/-- A left fold of `Nat.max` computes the maximum of the seed and the
list elements. -/
theorem foldl_max_spec (a : Nat) (l : List Nat) :
    a ≤ l.foldl Nat.max a ∧ (∀ x ∈ l, x ≤ l.foldl Nat.max a) ∧
      (l.foldl Nat.max a = a ∨ l.foldl Nat.max a ∈ l) := by
  induction l generalizing a with
  | nil => simp
  | cons x xs ih =>
      obtain ⟨h1, h2, h3⟩ := ih (Nat.max a x)
      refine ⟨le_trans (Nat.le_max_left a x) h1, ?_, ?_⟩
      · intro y hy
        simp only [List.foldl_cons]
        rcases List.mem_cons.mp hy with rfl | hy'
        · exact le_trans (Nat.le_max_right a y) h1
        · exact h2 y hy'
      · simp only [List.foldl_cons]
        rcases h3 with h | h
        · rcases Nat.le_total a x with hx | hx
          · right
            have hm : a.max x = x := by show max a x = x; omega
            rw [h, hm]; exact List.mem_cons_self x xs
          · left
            have hm : a.max x = a := by show max a x = a; omega
            rw [h, hm]
        · right; exact List.mem_cons_of_mem x h

/-- `listitem2notion` on a `ListItem` either raises or yields a single
block carrying the requested list type. -/
theorem listitem2notion_cases (children : List BlockToken) (t : String) :
    (∃ e, listitem2notion (.listItem children) t = .error e) ∨
    (∃ d, listitem2notion (.listItem children) t = .ok [NBlock.mk t d]) := by
  cases children with
  | nil => exact Or.inl ⟨.indexError, by rw [listitem2notion]⟩
  | cons c0 rest =>
      cases hsp : firstChildSpans c0 with
      | error e =>
          refine Or.inl ⟨e, ?_⟩
          rw [listitem2notion, hsp]
          rfl
      | ok sp =>
          cases hst : spans2text sp with
          | error e =>
              refine Or.inl ⟨e, ?_⟩
              rw [listitem2notion, hsp]
              simp only [except_ok_bind]
              rw [hst]
              rfl
          | ok p =>
              have step : listitem2notion (.listItem (c0 :: rest)) t =
                  (match rest with
                   | .list st lits :: _ =>
                       list2notion st lits >>= fun sub =>
                       pure (make_block t (.richTextChildren p.1 (p.2 ++ sub)))
                   | _ => pure (make_block t (.richText p.1))) := by
                rw [listitem2notion, hsp]
                simp only [except_ok_bind]
                rw [hst]
                rfl
              rcases rest with _ | ⟨hd, tl⟩
              · exact Or.inr ⟨.richText p.1, by rw [step]; rfl⟩
              · cases hd with
                | list st lits =>
                    cases hsub : list2notion st lits with
                    | error e =>
                        refine Or.inl ⟨e, ?_⟩
                        rw [step]
                        show (list2notion st lits >>= _) = _
                        rw [hsub]
                        rfl
                    | ok sub =>
                        refine Or.inr ⟨.richTextChildren p.1 (p.2 ++ sub), ?_⟩
                        rw [step]
                        show (list2notion st lits >>= _) = _
                        rw [hsub]
                        rfl
                | heading level sp2 => exact Or.inr ⟨.richText p.1, by rw [step]; rfl⟩
                | quote sp2 => exact Or.inr ⟨.richText p.1, by rw [step]; rfl⟩
                | paragraph sp2 => exact Or.inr ⟨.richText p.1, by rw [step]; rfl⟩
                | codeFence lang sp2 => exact Or.inr ⟨.richText p.1, by rw [step]; rfl⟩
                | blockCode lang sp2 => exact Or.inr ⟨.richText p.1, by rw [step]; rfl⟩
                | htmlBlock lang sp2 => exact Or.inr ⟨.richText p.1, by rw [step]; rfl⟩
                | listItem cs2 => exact Or.inr ⟨.richText p.1, by rw [step]; rfl⟩
                | table hd2 rs2 => exact Or.inr ⟨.richText p.1, by rw [step]; rfl⟩
                | thematicBreak => exact Or.inr ⟨.richText p.1, by rw [step]; rfl⟩

/-- Every successful `listitem2notion` result is a single block carrying
the requested list type. -/
theorem listitem2notion_shape (b : BlockToken) (t : String) (l : List NBlock)
    (h : listitem2notion b t = .ok l) : ∃ d, l = [NBlock.mk t d] := by
  cases b with
  | listItem children =>
      rcases listitem2notion_cases children t with ⟨e, he⟩ | ⟨d, hd⟩
      · rw [he] at h; exact absurd h (by simp)
      · rw [hd] at h
        injection h with h'
        exact ⟨d, h'.symm⟩
  | heading level sp => simp [listitem2notion] at h
  | quote sp => simp [listitem2notion] at h
  | paragraph sp => simp [listitem2notion] at h
  | codeFence lang sp => simp [listitem2notion] at h
  | blockCode lang sp => simp [listitem2notion] at h
  | htmlBlock lang sp => simp [listitem2notion] at h
  | list st cs => simp [listitem2notion] at h
  | table hd rs => simp [listitem2notion] at h
  | thematicBreak => simp [listitem2notion] at h

/-! ## Claims -/

/-- C1: converting nested style spans accumulates annotations by
set-union, never overwrite: `Strong([Emphasis([text("x")])])` yields
exactly one run whose annotation set holds both `bold` and `italic`;
and in general wrapping already-converted runs in an outer `Strong`
(resp. `Emphasis`) maps `setBold` (resp. `setItalic`) over them, which
sets its own flag and leaves every other annotation of each run
untouched. -/
theorem spans2text_annotation_union :
    (spans2text [Span.strong [Span.emphasis [Span.rawText "x"]]] =
      .ok ([{ content := "x",
              annotations := { bold := true, italic := true },
              plain_text := "x", link := none, href := none }], [])) ∧
    (∀ (c : Span) (cs : List Span) (runs : List RichText) (imgs : List NBlock),
      spans2text (c :: cs) = .ok (runs, imgs) →
      spans2text [Span.strong (c :: cs)] = .ok (runs.map setBold, imgs) ∧
      ∀ r : RichText,
        (setBold r).annotations.bold = true ∧
        (setBold r).annotations.italic = r.annotations.italic ∧
        (setBold r).annotations.code = r.annotations.code ∧
        (setBold r).annotations.strikethrough = r.annotations.strikethrough) ∧
    (∀ (c : Span) (cs : List Span) (runs : List RichText) (imgs : List NBlock),
      spans2text (c :: cs) = .ok (runs, imgs) →
      spans2text [Span.emphasis (c :: cs)] = .ok (runs.map setItalic, imgs) ∧
      ∀ r : RichText,
        (setItalic r).annotations.italic = true ∧
        (setItalic r).annotations.bold = r.annotations.bold ∧
        (setItalic r).annotations.code = r.annotations.code ∧
        (setItalic r).annotations.strikethrough = r.annotations.strikethrough) := by
  refine ⟨?_, ?_, ?_⟩
  · simp [spans2text, span2text_one, leafRun, setBold, setItalic, make_block]
  · intro c cs runs imgs h
    have h1 : span2text_one (Span.strong (c :: cs)) = .ok (runs.map setBold, imgs) := by
      simp only [span2text_one]
      rw [h]
      simp
    constructor
    · simp only [spans2text, h1, except_ok_bind, except_pure_def]
      simp
    · intro r
      simp [setBold]
  · intro c cs runs imgs h
    have h1 : span2text_one (Span.emphasis (c :: cs)) = .ok (runs.map setItalic, imgs) := by
      simp only [span2text_one]
      rw [h]
      simp
    constructor
    · simp only [spans2text, h1, except_ok_bind, except_pure_def]
      simp
    · intro r
      simp [setItalic]

/-- C1 witness: the general conjunct applied to a single plain-text
span wrapped in `Strong`. -/
theorem spans2text_annotation_union_witness :
    spans2text [Span.strong [Span.rawText "y"]] =
      .ok ([setBold (leafRun "y")], []) ∧
    (setBold (leafRun "y")).annotations.bold = true :=
  ⟨(spans2text_annotation_union.2.1 (Span.rawText "y") [] [leafRun "y"] []
      (by simp [spans2text, span2text_one])).1,
   ((spans2text_annotation_union.2.1 (Span.rawText "y") [] [leafRun "y"] []
      (by simp [spans2text, span2text_one])).2 (leafRun "y")).1⟩

/-- C2: the converter is not total over well-formed input — it raises.
An empty Markdown document hits `print(doc.children[-1].children)`
(IndexError); a table with a header and zero body rows hits
`max(len(header.children), *[])`, i.e. `max` of a bare int (TypeError);
a list item with no children hits `block.children[0]` (IndexError). -/
theorem converter_raises_on_degenerate_wellformed_input :
    md2notion [] = .error .indexError ∧
    table2notion ⟨[⟨[Span.rawText "a"]⟩]⟩ [] = .error .typeError ∧
    listitem2notion (.listItem []) "bulleted_list_item" = .error .indexError := by
  refine ⟨rfl, ?_, ?_⟩
  · simp [table2notion, tablerow2notion, spans2text, span2text_one, leafRun,
      make_block, except_mapM_def]
  · simp [listitem2notion]

/-- C3 counterexample: a run whose `href` key holds the empty string
carries a link, yet `_rich_text_arr_to_text` emits the bare text `"x"`
(Python's `if href:` is falsy on `""`), not `"(x)[]"`. -/
theorem rich_text_link_empty_href_counterexample :
    richTextArrToText
        (some (.arr [.obj [("plain_text", .str "x"), ("href", .str "")]])) =
      .ok "x" ∧
    (Except.ok "x" : Except PyErr String) ≠ .ok "(x)[]" := by
  refine ⟨rfl, ?_⟩
  intro h
  simp at h

/-- C3 (amended): a run whose `href` is a nonempty string renders as
`(text)[url]`; a run with no `href` key, or with an empty `href`,
renders as its literal text alone; and the array renderer concatenates
the per-run outputs in order. -/
theorem rich_text_link_rendering :
    (∀ (t u : String), u ≠ "" →
      richTextItemToText (.obj [("plain_text", .str t), ("href", .str u)]) =
        .ok ("(" ++ t ++ ")[" ++ u ++ "]")) ∧
    (∀ t : String,
      richTextItemToText (.obj [("plain_text", .str t)]) = .ok t) ∧
    (∀ t : String,
      richTextItemToText (.obj [("plain_text", .str t), ("href", .str "")]) =
        .ok t) ∧
    (∀ (items : List JVal) (texts : List String),
      items.mapM richTextItemToText = .ok texts →
      richTextArrToText (some (.arr items)) = .ok (String.join texts)) := by
  refine ⟨?_, ?_, ?_, ?_⟩
  · intro t u hu
    simp [richTextItemToText, JVal.get, List.lookup, pyTruthyO, pyTruthy,
      pyStr, pyStrO, hu]
  · intro t
    simp [richTextItemToText, JVal.get, List.lookup, pyTruthyO, pyTruthy,
      pyStr, pyStrO]
  · intro t
    simp [richTextItemToText, JVal.get, List.lookup, pyTruthyO, pyTruthy,
      pyStr, pyStrO]
  · intro items texts hmap
    rw [except_mapM_def] at hmap
    simp [richTextArrToText, hmap]

/-- C3 witness: a linked run and a plain run, rendered and
concatenated. -/
theorem rich_text_link_rendering_witness :
    richTextItemToText (.obj [("plain_text", .str "a"), ("href", .str "u")]) =
      .ok "(a)[u]" :=
  rich_text_link_rendering.1 "a" "u" (by decide)

/-- C4 counterexample: an ordered list starting at 0 (`0. a` — `start`
is the int `0`, not `None`) converts its item to `bulleted_list_item`,
because `list2notion` tests the truthiness of `block.start`, not
orderedness. -/
theorem ordered_list_start_zero_counterexample :
    (some 0 : Option Nat) ≠ none ∧
    list2notion (some 0) [.listItem [.paragraph [Span.rawText "a"]]] =
      .ok [NBlock.mk "bulleted_list_item" (.richText [leafRun "a"])] ∧
    "bulleted_list_item" ≠ "numbered_list_item" := by
  refine ⟨by simp, ?_, by decide⟩
  simp [list2notion, listitem2notion, firstChildSpans, spans2text,
    span2text_one, pyTruthyNat, make_block]

/-- C4 (amended): every item block produced by `list2notion` has kind
`numbered_list_item` iff the parent list's `start` is truthy (present
and nonzero), and `bulleted_list_item` otherwise — so an ordered list
with start number 0 yields bulleted items. -/
theorem list_item_kind_by_start_truthiness :
    ∀ (start : Option Nat) (items : List BlockToken) (blocks : List NBlock),
      list2notion start items = .ok blocks →
      ∀ blk ∈ blocks, blk.type =
        (if pyTruthyNat start then "numbered_list_item"
         else "bulleted_list_item") := by
  intro start items
  induction items with
  | nil =>
      intro blocks h blk hblk
      simp only [list2notion, Except.ok.injEq] at h
      subst h
      simp at hblk
  | cons c cs ih =>
      intro blocks h blk hblk
      simp only [list2notion] at h
      cases hi : listitem2notion c
          (if pyTruthyNat start then "numbered_list_item"
           else "bulleted_list_item") with
      | error e => rw [hi] at h; simp at h
      | ok items1 =>
          rw [hi] at h
          simp only [except_ok_bind] at h
          cases hrest : list2notion start cs with
          | error e => rw [hrest] at h; simp at h
          | ok rest1 =>
              rw [hrest] at h
              simp only [except_ok_bind, except_pure_def, Except.ok.injEq] at h
              subst h
              rcases List.mem_append.mp hblk with h1 | h2
              · obtain ⟨d, hd⟩ := listitem2notion_shape _ _ _ hi
                subst hd
                rcases List.mem_singleton.mp h1 with rfl
                rfl
              · exact ih rest1 hrest blk h2

/-- C4 witness: an ordered list with truthy start number 1 yields a
`numbered_list_item`. -/
theorem list_item_kind_by_start_truthiness_witness :
    (NBlock.mk "numbered_list_item" (.richText [leafRun "a"])).type =
      (if pyTruthyNat (some 1) then "numbered_list_item"
       else "bulleted_list_item") :=
  list_item_kind_by_start_truthiness (some 1)
    [.listItem [.paragraph [Span.rawText "a"]]]
    [NBlock.mk "numbered_list_item" (.richText [leafRun "a"])]
    (by simp [list2notion, listitem2notion, firstChildSpans, spans2text,
          span2text_one, pyTruthyNat, make_block])
    (NBlock.mk "numbered_list_item" (.richText [leafRun "a"]))
    (List.mem_singleton.mpr rfl)

/-- Unfolding of the renderer at positive fuel for a block whose
`"type"` value is the string `bt`. -/
theorem block_dict_to_text_succ_of_type (fuel : Nat) (b : JVal) (pos : Nat)
    (bt : String) (ht : b.get "type" = some (.str bt)) :
    block_dict_to_text (fuel + 1) b pos =
      dispatch (fun c i => block_dict_to_text fuel c i) bt
        ((b.get "data").getD (.obj []))
        (b.get "id") (b.get "has_children") (b.get "children") pos := by
  simp only [block_dict_to_text, ht]

/-- C5: for every table with a header row and at least one body row,
the `table` block's `table_width` is the maximum of the header's and
every body row's cell count, and its children are the converted header
row followed by the converted body rows in order; in particular a
2-cell header with one 3-cell body row yields `table_width = 3`. -/
theorem table_width_and_children :
    (table2notion ⟨[⟨[]⟩, ⟨[]⟩]⟩ [⟨[⟨[]⟩, ⟨[]⟩, ⟨[]⟩]⟩] =
      .ok [NBlock.mk "table" (.tableData 3
        [NBlock.mk "table_row" (.cells [[], []]),
         NBlock.mk "table_row" (.cells [[], [], []])])]) ∧
    (∀ (header r : TableRow) (rs : List TableRow)
       (headerRows : List NBlock) (chunks : List (List NBlock)),
      tablerow2notion header = .ok headerRows →
      (r :: rs).mapM tablerow2notion = .ok chunks →
      ∀ tw : Nat,
        tw = (r :: rs).foldl (fun acc row => Nat.max acc row.children.length)
          header.children.length →
        table2notion header (r :: rs) =
          .ok (make_block "table"
            (.tableData tw (headerRows ++ chunks.flatten))) ∧
        header.children.length ≤ tw ∧
        (∀ row ∈ r :: rs, row.children.length ≤ tw) ∧
        (tw = header.children.length ∨
          ∃ row ∈ r :: rs, tw = row.children.length)) := by
  constructor
  · simp [table2notion, tablerow2notion, spans2text, make_block, except_mapM_def]
  · intro header r rs headerRows chunks hhdr hbody tw htw
    have hfold : tw =
        ((r :: rs).map (fun row => row.children.length)).foldl Nat.max
          header.children.length := by
      rw [htw, List.foldl_map]
    refine ⟨?_, ?_, ?_, ?_⟩
    · rw [htw, except_mapM_def] at *
      simp only [table2notion, hhdr, except_ok_bind, except_mapM_def, hbody,
        except_pure_def]
    · rw [hfold]; exact (foldl_max_spec _ _).1
    · intro row hrow
      rw [hfold]
      exact (foldl_max_spec _ _).2.1 _ (List.mem_map_of_mem _ hrow)
    · rw [hfold]
      rcases (foldl_max_spec header.children.length
          ((r :: rs).map (fun row => row.children.length))).2.2 with h | h
      · exact Or.inl h
      · obtain ⟨row, hrow, hlen⟩ := List.mem_map.mp h
        exact Or.inr ⟨row, hrow, hlen.symm⟩

/-- C5 witness: a 1-cell header with a single 2-cell body row. -/
theorem table_width_and_children_witness :
    table2notion ⟨[⟨[]⟩]⟩ [⟨[⟨[]⟩, ⟨[]⟩]⟩] =
      .ok (make_block "table" (.tableData 2
        ([NBlock.mk "table_row" (.cells [[]])] ++
         ([[NBlock.mk "table_row" (.cells [[], []])]] :
            List (List NBlock)).flatten))) :=
  (table_width_and_children.2 ⟨[⟨[]⟩]⟩ ⟨[⟨[]⟩, ⟨[]⟩]⟩ []
    [NBlock.mk "table_row" (.cells [[]])]
    [[NBlock.mk "table_row" (.cells [[], []])]]
    (by simp [tablerow2notion, spans2text, make_block, except_mapM_def])
    (by simp [tablerow2notion, spans2text, make_block, except_mapM_def])
    2 (by decide)).1

/-- C6: rendering a `numbered_list_item` block at 0-based position
`pos` produces a line beginning with the decimal numeral `pos + 1`
followed by `". "`. -/
theorem numbered_list_item_position_numeral :
    ∀ (fuel pos : Nat) (b : JVal) (s : String),
      b.get "type" = some (.str "numbered_list_item") →
      block_dict_to_text fuel b pos = .ok s →
      ∃ rest, s = toString (pos + 1) ++ ". " ++ rest := by
  intro fuel pos b s ht h
  cases fuel with
  | zero => exact absurd h (by simp [block_dict_to_text])
  | succ fuel =>
      rw [block_dict_to_text_succ_of_type fuel b pos _ ht,
        dispatch_numbered_eq] at h
      cases hrt : richTextArrToText (((b.get "data").getD (.obj [])).get
          "rich_text") with
      | error e => rw [hrt] at h; simp at h
      | ok rt =>
          rw [hrt] at h
          simp only [except_ok_bind] at h
          cases hfc : format_children (fun c i => block_dict_to_text fuel c i)
              (b.get "has_children") (b.get "children") with
          | error e => rw [hfc] at h; simp at h
          | ok fc =>
              rw [hfc] at h
              simp only [except_ok_bind, except_pure_def, Except.ok.injEq] at h
              refine ⟨rt ++ fc, ?_⟩
              rw [← h, String.append_assoc]

/-- C6 witness: position index 2 renders a line beginning `3. `. -/
theorem numbered_list_item_position_numeral_witness :
    ∃ rest, "3. hi" = toString (2 + 1) ++ ". " ++ rest :=
  numbered_list_item_position_numeral 1 2
    (.obj [("type", .str "numbered_list_item"),
           ("data", .obj [("rich_text", .arr [.obj [("plain_text", .str "hi")]])])])
    "3. hi" rfl rfl

/-- C7 counterexample: two blocks agreeing on `type`, `data` and
`children` (and even `has_children`) but differing in the metadata
field `id` render differently — the `table` branch interpolates
`block_dict.get("id")`. -/
theorem renderer_reads_id_counterexample :
    ((JVal.obj [("type", .str "table"), ("id", .str "a")]).get "type" =
      (JVal.obj [("type", .str "table"), ("id", .str "b")]).get "type") ∧
    ((JVal.obj [("type", .str "table"), ("id", .str "a")]).get "data" =
      (JVal.obj [("type", .str "table"), ("id", .str "b")]).get "data") ∧
    ((JVal.obj [("type", .str "table"), ("id", .str "a")]).get "children" =
      (JVal.obj [("type", .str "table"), ("id", .str "b")]).get "children") ∧
    ((JVal.obj [("type", .str "table"), ("id", .str "a")]).get "has_children" =
      (JVal.obj [("type", .str "table"), ("id", .str "b")]).get "has_children") ∧
    block_dict_to_text 1 (.obj [("type", .str "table"), ("id", .str "a")]) 0 ≠
      block_dict_to_text 1 (.obj [("type", .str "table"), ("id", .str "b")]) 0 := by
  refine ⟨rfl, rfl, rfl, rfl, ?_⟩
  intro h
  rw [show block_dict_to_text 1
        (.obj [("type", .str "table"), ("id", .str "a")]) 0 =
        .ok "[Table](table_id=a)" from rfl,
      show block_dict_to_text 1
        (.obj [("type", .str "table"), ("id", .str "b")]) 0 =
        .ok "[Table](table_id=b)" from rfl] at h
  simp at h

/-- C7 (amended): the renderer reads a block dict only through the five
keys `type`, `data`, `id`, `has_children` and `children`; two blocks
agreeing on those render identically for every fuel and position —
in particular `created_at` and `modified_at` are ignored. -/
theorem renderer_ignores_timestamps :
    ∀ (fuel pos : Nat) (b1 b2 : JVal),
      b1.get "type" = b2.get "type" →
      b1.get "data" = b2.get "data" →
      b1.get "id" = b2.get "id" →
      b1.get "has_children" = b2.get "has_children" →
      b1.get "children" = b2.get "children" →
      block_dict_to_text fuel b1 pos = block_dict_to_text fuel b2 pos := by
  intro fuel pos b1 b2 h1 h2 h3 h4 h5
  cases fuel with
  | zero => rfl
  | succ fuel =>
      simp only [block_dict_to_text]
      rw [h1, h2, h3, h4, h5]

/-- C7 witness: two `divider` blocks differing only in `created_at` and
`modified_at` render identically. -/
theorem renderer_ignores_timestamps_witness :
    block_dict_to_text 1
        (.obj [("type", .str "divider"), ("created_at", .str "2020-01-01"),
               ("modified_at", .str "2020-01-02")]) 0 =
      block_dict_to_text 1
        (.obj [("type", .str "divider"), ("created_at", .str "2021-07-07"),
               ("modified_at", .str "2021-07-08")]) 0 :=
  renderer_ignores_timestamps 1 0
    (.obj [("type", .str "divider"), ("created_at", .str "2020-01-01"),
           ("modified_at", .str "2020-01-02")])
    (.obj [("type", .str "divider"), ("created_at", .str "2021-07-07"),
           ("modified_at", .str "2021-07-08")])
    rfl rfl rfl rfl rfl

/-- C8: how the renderer really degrades on missing fields.  A missing
rich-text array renders as the empty string (paragraph case, as the
claim says); but a code block with a missing `language` renders the
literal string `None` into its fence, and an image with a missing URL
renders `![None](None)` — Python's `str(None)` leaks through the
f-strings — while a bookmark's missing URL does default to the empty
string.  Evaluations at the failing inputs. -/
theorem missing_fields_none_leak :
    block_dict_to_text 1
        (.obj [("type", .str "paragraph"), ("data", .obj [])]) 0 = .ok "" ∧
    block_dict_to_text 1
        (.obj [("type", .str "code"), ("data", .obj [])]) 0 =
      .ok "```None\n\n```" ∧
    block_dict_to_text 1
        (.obj [("type", .str "image"),
               ("data", .obj [("type", .str "external"),
                              ("external", .obj [])])]) 0 =
      .ok "![None](None)" ∧
    block_dict_to_text 1
        (.obj [("type", .str "bookmark"), ("data", .obj [])]) 0 =
      .ok "[]()" :=
  ⟨rfl, rfl, rfl, rfl⟩

/-- C9 counterexample: the kind string `"headingfoo"` matches none of
the recognized kinds (it is not `heading_N` for any `N`), yet the
renderer does not return the empty string — `int("headingfoo")` raises
ValueError. -/
theorem heading_prefixed_unknown_kind_counterexample :
    block_dict_to_text 1 (.obj [("type", .str "headingfoo")]) 0 =
      .error .valueError ∧
    block_dict_to_text 1 (.obj [("type", .str "headingfoo")]) 0 ≠ .ok "" := by
  refine ⟨rfl, ?_⟩
  intro h
  rw [show block_dict_to_text 1 (.obj [("type", .str "headingfoo")]) 0 =
        .error .valueError from rfl] at h
  exact Except.noConfusion h

/-- C9 (amended): every block whose kind string equals none of the
recognized kinds and does not start with `"heading"` renders as the
empty string (kind strings starting with `"heading"` instead reach
`int(...)`, which raises on non-numeric suffixes). -/
theorem unknown_kind_renders_empty :
    ∀ (fuel pos : Nat) (b : JVal) (bt : String),
      b.get "type" = some (.str bt) →
      bt ∉ (["bookmark", "breadcrumb", "bulleted_list_item", "callout",
             "child_database", "child_page", "code", "column_list", "divider",
             "embed", "equation", "file", "image", "link_preview", "mention",
             "numbered_list_item", "paragraph", "pdf", "quote", "synced_block",
             "table", "table_of_contents", "to_do", "toggle", "video"] :
            List String) →
      pyStartsWith bt "heading" = false →
      block_dict_to_text (fuel + 1) b pos = .ok "" := by
  intro fuel pos b bt ht hmem hsw
  rw [block_dict_to_text_succ_of_type fuel b pos _ ht]
  simp only [List.mem_cons, List.not_mem_nil, or_false, not_or] at hmem
  obtain ⟨n1, n2, n3, n4, n5, n6, n7, n8, n9, n10, n11, n12, n13, n14, n15,
    n16, n17, n18, n19, n20, n21, n22, n23, n24, n25⟩ := hmem
  simp [dispatch, n1, n2, n3, n4, n5, n6, n7, n8, n9, n10, n11, n12, n13,
    n14, n15, n16, n17, n18, n19, n20, n21, n22, n23, n24, n25, hsw]

/-- C9 witness: the kind `"unsupported_xyz"` renders as the empty
string. -/
theorem unknown_kind_renders_empty_witness :
    block_dict_to_text 1 (.obj [("type", .str "unsupported_xyz")]) 0 = .ok "" :=
  unknown_kind_renders_empty 0 0 (.obj [("type", .str "unsupported_xyz")])
    "unsupported_xyz" rfl (by decide) rfl

/-- C10: when a list item's token has no second child that is a `List`,
the images extracted from its own inline spans are silently discarded —
the result is exactly one list-item block carrying only the rich text,
whatever `imgs` was; and they are attached (prepended before the
sub-list blocks) exactly when the second child is a `List`. -/
theorem listitem_images_discarded :
    (∀ (c0 : BlockToken) (rest : List BlockToken) (t : String)
       (sp : List Span) (runs : List RichText) (imgs : List NBlock),
      firstChildSpans c0 = .ok sp →
      spans2text sp = .ok (runs, imgs) →
      (∀ (st : Option Nat) (lits tl : List BlockToken),
        rest ≠ BlockToken.list st lits :: tl) →
      listitem2notion (.listItem (c0 :: rest)) t =
        .ok [NBlock.mk t (.richText runs)]) ∧
    (∀ (c0 : BlockToken) (st : Option Nat) (lits tl : List BlockToken)
       (t : String) (sp : List Span) (runs : List RichText)
       (imgs sub : List NBlock),
      firstChildSpans c0 = .ok sp →
      spans2text sp = .ok (runs, imgs) →
      list2notion st lits = .ok sub →
      listitem2notion (.listItem (c0 :: BlockToken.list st lits :: tl)) t =
        .ok [NBlock.mk t (.richTextChildren runs (imgs ++ sub))]) := by
  constructor
  · intro c0 rest t sp runs imgs hsp hst hnolist
    rw [listitem2notion, hsp]
    simp only [except_ok_bind]
    rw [hst]
    simp only [except_ok_bind]
    rcases rest with _ | ⟨hd, tl⟩
    · rfl
    · cases hd with
      | list st lits => exact absurd rfl (hnolist st lits tl)
      | heading level sp2 => rfl
      | quote sp2 => rfl
      | paragraph sp2 => rfl
      | codeFence lang sp2 => rfl
      | blockCode lang sp2 => rfl
      | htmlBlock lang sp2 => rfl
      | listItem cs2 => rfl
      | table hd2 rs2 => rfl
      | thematicBreak => rfl
  · intro c0 st lits tl t sp runs imgs sub hsp hst hsub
    rw [listitem2notion, hsp]
    simp only [except_ok_bind]
    rw [hst]
    simp only [except_ok_bind]
    show (list2notion st lits >>= _) = _
    rw [hsub]
    rfl

/-- C10 witness: an item whose paragraph contains an inline image and
which has no nested list: the extracted image block is dropped. -/
theorem listitem_images_discarded_witness :
    listitem2notion
        (.listItem [.paragraph [Span.rawText "hi", Span.image "http://u"]])
        "bulleted_list_item" =
      .ok [NBlock.mk "bulleted_list_item" (.richText [leafRun "hi"])] :=
  listitem_images_discarded.1
    (.paragraph [Span.rawText "hi", Span.image "http://u"]) []
    "bulleted_list_item" [Span.rawText "hi", Span.image "http://u"]
    [leafRun "hi"] [NBlock.mk "image" (.externalImage "http://u")]
    rfl
    (by simp [spans2text, span2text_one, make_block])
    (by intro st lits tl hcon; exact List.noConfusion hcon)

end NotionRepo
